import Mathlib

/-
Verification of the CSLM survey-logic core (Universal-State-Machine).

This file is a shallow embedding, in Lean 4, of the two algorithmic pieces of
the repository:

  * the SPSS-dialect expression pipeline of src/cslm/csv_parser.py
    (normalize_expression_syntax, _tokenize, the recursive-descent parser), and
  * the read-only survey analyzer of src/cslm/analyzer.py (analyze_survey,
    _analyze_expression, _find_cycles_dfs),

together with the expression (de)serializer of src/cslm/serialization.py
(expr_to_dict / expr_from_dict) and the data model of src/cslm/model.py and
src/cslm/expressions.py.

Embedding conventions:

  * Python strings are Lean String / List Char; Python floats are modelled as
    exact rationals (all quantities compared here are small dyadic/decimal
    values, where IEEE doubles are exact or the comparisons are far from the
    representable-rounding boundary).
  * Python sets of strings are modelled as duplicate-free Lean lists, built
    only through List.insert and filters; only membership, emptiness and
    sorting are ever consumed, all of which agree with set semantics.
  * Python dict-of-lists adjacency (collections.defaultdict(list)) is an
    association list in insertion order, matching dict iteration order.
  * Recursion that Python performs on the call stack is given an explicit
    fuel parameter so that every definition is structurally recursive and
    kernel-reducible; the fuel supplied by the top-level entry points is
    always sufficient for the inputs they pass down.
  * Fallible Python code (raise CSVParseError / TypeError / ValueError)
    becomes Except String.
-/

namespace CSLM

/-- Single-quote character, used to build Python error-message text. -/
def squote : String := "\x27"

/-- Exact rational model of a Python float.  Every float value handled by
the embedded code is a small decimal for which IEEE double arithmetic is
exact, or is only compared against thresholds far beyond the rounding
error, so exact rationals are a faithful model.  All values are built
through the normalizing operations below, so structural equality coincides
with numeric equality. -/
structure PyFloat where
  num : Int
  den : Nat
deriving DecidableEq

/-- Normalized rational from a numerator and a positive denominator. -/
def normF (n : Int) (d : Nat) : PyFloat :=
  let g := Nat.gcd n.natAbs d
  if g = 0 then ⟨0, 1⟩ else ⟨n / (g : Int), d / g⟩

instance (n : Nat) : OfNat PyFloat n := ⟨⟨(n : Int), 1⟩⟩

/-- Negation of a Python float. -/
def PyFloat.neg (a : PyFloat) : PyFloat := ⟨-a.num, a.den⟩

/-- Addition of Python floats. -/
def PyFloat.add (a b : PyFloat) : PyFloat :=
  normF (a.num * (b.den : Int) + b.num * (a.den : Int)) (a.den * b.den)

/-- Multiplication of Python floats. -/
def PyFloat.mul (a b : PyFloat) : PyFloat :=
  normF (a.num * b.num) (a.den * b.den)

/-- Division of Python floats (callers only divide by nonzero values). -/
def PyFloat.div (a b : PyFloat) : PyFloat :=
  if b.num < 0 then normF (-(a.num * (b.den : Int))) (b.num.natAbs * a.den)
  else normF (a.num * (b.den : Int)) (b.num.natAbs * a.den)

/-- Strict order on Python floats, by cross multiplication. -/
def pfLt (a b : PyFloat) : Bool :=
  a.num * (b.den : Int) < b.num * (a.den : Int)

/-- Embeds str.join. -/
def joinSep (sep : String) : List String → String
  | [] => ""
  | [x] => x
  | x :: xs => x ++ sep ++ joinSep sep xs

/- ===========================================================================
   Data model: src/cslm/expressions.py
   =========================================================================== -/

/-- Value carried by a Literal node.  The Python attribute
Literal.value is typed Union of int, float, str, bool (expressions.py). -/
inductive PyVal where
  | pint (n : Int)
  | pfloat (q : PyFloat)
  | pstr (s : String)
  | pbool (b : Bool)
deriving DecidableEq

/-- Embeds enum BinaryOperator of expressions.py. -/
inductive BinaryOperator where
  | AND
  | OR
  | EQUALS
  | NOT_EQUALS
  | GREATER_THAN
  | GREATER_EQUAL
  | LESS_THAN
  | LESS_EQUAL
deriving DecidableEq

/-- Embeds the .value string of each BinaryOperator enum member
(expressions.py lines 41-61). -/
def BinaryOperator.value : BinaryOperator → String
  | .AND => "AND"
  | .OR => "OR"
  | .EQUALS => "=="
  | .NOT_EQUALS => "!="
  | .GREATER_THAN => ">"
  | .GREATER_EQUAL => ">="
  | .LESS_THAN => "<"
  | .LESS_EQUAL => "<="

/-- Embeds enum UnaryOperator of expressions.py. -/
inductive UnaryOperator where
  | NOT
deriving DecidableEq

/-- Embeds the .value string of each UnaryOperator enum member. -/
def UnaryOperator.value : UnaryOperator → String
  | .NOT => "NOT"

/-- Embeds the Expression class hierarchy of src/cslm/expressions.py as a
closed sum: BinaryExpression(operator, left, right), VariableReference(name),
Literal(value), UnaryExpression(operator, operand).

The FunctionCall constructor is Modelled from the spec: the class
FunctionCall is imported by src/cslm/csv_parser.py from cslm.expressions but
its definition is missing from the source tree under src/; following spec
section 3 it is FunctionCall(name, arguments) where name is an identifier and
arguments is an ordered sequence of Expressions. -/
inductive Expression where
  | BinaryExpression (operator : BinaryOperator) (left right : Expression)
  | VariableReference (name : String)
  | Literal (value : PyVal)
  | UnaryExpression (operator : UnaryOperator) (operand : Expression)
  | FunctionCall (name : String) (arguments : List Expression)

/- ===========================================================================
   Syntax normalization: normalize_expression_syntax, csv_parser.py lines 64-76
   =========================================================================== -/

/-- Characters matched by the regex class backslash-s in Python (re.sub
whitespace collapsing, csv_parser.py line 69). -/
def isPySpace (c : Char) : Bool :=
  c = ' ' || c = '\t' || c = '\n' || c = '\r' || c = '\x0b' || c = '\x0c'

/-- Embeds str.strip(): remove leading and trailing whitespace. -/
def pyStrip (s : String) : String :=
  String.mk (((s.toList.dropWhile isPySpace).reverse.dropWhile isPySpace).reverse)

/-- Embeds re.sub of one-or-more whitespace to a single space
(csv_parser.py line 69); the Bool argument records whether the previous
character was whitespace, so each whitespace run contributes one space. -/
def collapseWsAux : Bool → List Char → List Char
  | _, [] => []
  | prevSpace, c :: rest =>
    if isPySpace c then
      if prevSpace then collapseWsAux true rest
      else ' ' :: collapseWsAux true rest
    else c :: collapseWsAux false rest

/-- True when the optional character is present and belongs to the given
class; used for the one-character lookbehind/lookahead of the re.sub calls. -/
def badOpt (bad : List Char) : Option Char → Bool
  | some c => bad.contains c
  | none => false

/-- Embeds one re.sub pass of csv_parser.py lines 73-76: replace character
tgt by repl wherever the preceding original character is not in prevBad
(lookbehind) and the following character is not in nextBad (lookahead). -/
def rewritePass (tgt : Char) (prevBad nextBad : List Char) (repl : List Char) :
    Option Char → List Char → List Char
  | _, [] => []
  | prev, c :: rest =>
    if c = tgt && !(badOpt prevBad prev) && !(badOpt nextBad rest.head?) then
      repl ++ rewritePass tgt prevBad nextBad repl (some c) rest
    else
      c :: rewritePass tgt prevBad nextBad repl (some c) rest

/-- Embeds the pre-tokenization normalization of normalize_expression_syntax
(csv_parser.py lines 68-76): strip, collapse whitespace runs, then rewrite
the ampersand to AND, the pipe to OR, the exclamation mark to NOT and a lone
equals sign to a double one, each guarded exactly as in the source regexes. -/
def normalizeText (s : String) : String :=
  let l := (pyStrip s).toList
  let l := collapseWsAux false l
  let l := rewritePass '&' ['='] ['='] " AND ".toList none l
  let l := rewritePass '|' ['='] ['='] " OR ".toList none l
  let l := rewritePass '!' [] ['='] " NOT ".toList none l
  let l := rewritePass '=' ['!', '<', '>', '='] ['!', '<', '>', '='] " == ".toList none l
  String.mk l

/- ===========================================================================
   Tokenizer: _tokenize, csv_parser.py lines 91-98
   =========================================================================== -/

/-- Tries to match the literal character sequence lit at the start of cs;
when ci is true the comparison is case-insensitive (re.IGNORECASE).  On
success returns the matched original characters and the remaining input,
exactly as a regex alternative returns the matched text. -/
def matchChars (lit : List Char) (ci : Bool) (cs : List Char) :
    Option (List Char × List Char) :=
  match lit, cs with
  | [], cs => some ([], cs)
  | _ :: _, [] => none
  | k :: ks, c :: cs =>
    if (if ci then k.toLower = c.toLower else k = c) then
      match matchChars ks ci cs with
      | some (m, r) => some (c :: m, r)
      | none => none
    else none

/-- Regex class open-bracket a-zA-Z_ close-bracket: start of an identifier. -/
def identStart (c : Char) : Bool := c.isAlpha || c = '_'

/-- Regex class open-bracket a-zA-Z0-9_ close-bracket: identifier body. -/
def identChar (c : Char) : Bool := c.isAlphanum || c = '_'

/-- Greedy match of the identifier alternative of the token regex. -/
def takeIdent (cs : List Char) : Option (List Char × List Char) :=
  match cs with
  | [] => none
  | c :: rest =>
    if identStart c then
      some (c :: rest.takeWhile identChar, rest.dropWhile identChar)
    else none

/-- Greedy match of the unsigned part of the numeric alternative:
digits with an optional trailing decimal part, or a dot followed by
at least one digit. -/
def takeNumCore (cs : List Char) : Option (List Char × List Char) :=
  match cs with
  | [] => none
  | c :: rest =>
    if c.isDigit then
      let ds := rest.takeWhile Char.isDigit
      let r1 := rest.dropWhile Char.isDigit
      match r1 with
      | '.' :: r2 =>
        some (c :: ds ++ '.' :: r2.takeWhile Char.isDigit, r2.dropWhile Char.isDigit)
      | _ => some (c :: ds, r1)
    else if c = '.' then
      match rest with
      | d :: _ =>
        if d.isDigit then some ('.' :: rest.takeWhile Char.isDigit, rest.dropWhile Char.isDigit)
        else none
      | [] => none
    else none

/-- Greedy match of the full numeric alternative: optional minus sign then
the unsigned core.  A lone minus sign matches nothing, as in the regex. -/
def takeNum (cs : List Char) : Option (List Char × List Char) :=
  match cs with
  | '-' :: rest =>
    (match takeNumCore rest with
     | some (m, r) => some ('-' :: m, r)
     | none => none)
  | _ => takeNumCore cs

/-- First defined result among a list of match attempts, modelling an
ordered regex alternation (all attempts are pure, so evaluating them
eagerly is observationally the same as trying them in order). -/
def firstSome : List (Option (List Char × List Char)) → Option (List Char × List Char)
  | [] => none
  | some x :: _ => some x
  | none :: rest => firstSome rest

/-- Embeds one attempt of the token regex of _tokenize (csv_parser.py line
94) at the current position: the alternatives are tried in the exact order
of the pattern (parentheses, the keywords AND / OR / NOT case-insensitively,
the two-character then one-character comparison operators, the dot,
identifiers, numbers), and the first alternative that matches wins, which is
the semantics of an ordered regex alternation. -/
def tok1 (cs : List Char) : Option (List Char × List Char) :=
  firstSome
    [matchChars "(".toList false cs,
     matchChars ")".toList false cs,
     matchChars "AND".toList true cs,
     matchChars "OR".toList true cs,
     matchChars "NOT".toList true cs,
     matchChars "==".toList false cs,
     matchChars "!=".toList false cs,
     matchChars "<=".toList false cs,
     matchChars ">=".toList false cs,
     matchChars "<".toList false cs,
     matchChars ">".toList false cs,
     matchChars ".".toList false cs,
     takeIdent cs,
     takeNum cs]

/-- Embeds re.findall scanning: repeatedly emit the token matched at the
current position, or skip one character when no alternative matches there.
The fuel is the input length, which bounds the number of steps since every
step consumes at least one character. -/
def scanAux : Nat → List Char → List String
  | 0, _ => []
  | _ + 1, [] => []
  | fuel + 1, c :: rest =>
    match tok1 (c :: rest) with
    | some (m, r) => String.mk m :: scanAux fuel r
    | none => scanAux fuel rest

/-- Embeds _tokenize (csv_parser.py lines 91-98) up to the emptiness check:
the ordered token list produced by re.findall. -/
def pyTokenizeList (s : String) : List String :=
  scanAux s.toList.length s.toList

/-- Embeds _tokenize including its failure case: an empty token list raises
CSVParseError with the no-valid-tokens message. -/
def pyTokenize (s : String) : Except String (List String) :=
  let ts := pyTokenizeList s
  if ts.isEmpty then .error ("No valid tokens in expression: " ++ s)
  else .ok ts

/- ===========================================================================
   Recursive-descent parser: csv_parser.py lines 101-218
   =========================================================================== -/

/-- Embeds the key lookup of op_map in _parse_comparison_expression
(csv_parser.py lines 129-141): returns the operator for the six comparison
tokens and none otherwise, merging the membership test of line 129 with the
dict lookup of line 143. -/
def cmpLookup : String → Option BinaryOperator
  | "==" => some .EQUALS
  | "!=" => some .NOT_EQUALS
  | "<" => some .LESS_THAN
  | ">" => some .GREATER_THAN
  | "<=" => some .LESS_EQUAL
  | ">=" => some .GREATER_EQUAL
  | _ => none

/-- Embeds the full-match test re.match of the numeric-literal branch of
_parse_primary_expression (csv_parser.py line 175). -/
def isNumericToken (s : String) : Bool :=
  match takeNum s.toList with
  | some (_, []) => true
  | _ => false

/-- Embeds the full-match test re.match of the identifier branch of
_parse_primary_expression (csv_parser.py line 179). -/
def isIdentToken (s : String) : Bool :=
  match takeIdent s.toList with
  | some (_, []) => true
  | _ => false

/-- Natural number denoted by a run of decimal digits. -/
def digitsVal (l : List Char) : Nat :=
  l.foldl (fun a c => a * 10 + (c.toNat - '0'.toNat)) 0

/-- Embeds Python float() on the unsigned numeric tokens produced by the
tokenizer: integer digits, optional fractional digits, read exactly. -/
def strToFloatCore (l : List Char) : PyFloat :=
  let ipVal : Nat := digitsVal (l.takeWhile Char.isDigit)
  match l.dropWhile Char.isDigit with
  | '.' :: fp =>
    PyFloat.add ⟨(ipVal : Int), 1⟩
      (PyFloat.div ⟨(digitsVal fp : Int), 1⟩ ⟨((10 : Int) ^ fp.length), 1⟩)
  | _ => ⟨(ipVal : Int), 1⟩

/-- Embeds Python float() on a numeric token string (with optional sign). -/
def strToFloat (s : String) : PyFloat :=
  match s.toList with
  | '-' :: rest => (strToFloatCore rest).neg
  | l => strToFloatCore l

/-- Embeds str.upper() on the ASCII tokens handled here. -/
def strUpper (s : String) : String := String.mk (s.toList.map Char.toUpper)

/-- One level of the mutually recursive parser of csv_parser.py, packaged so
that the whole family is a single structural recursion on fuel.  Field-to-
source mapping: pAnd is _parse_and_expression, pAndLoop its while loop; pOr
is _parse_or_expression, pOrLoop its while loop; pCmp is
_parse_comparison_expression; pUn is _parse_unary_expression; pPrim is
_parse_primary_expression; pArgs is the argument while-True loop inside the
function-call branch of _parse_primary_expression. -/
structure ParserPack where
  pAnd : List String → Nat → Except String (Expression × Nat)
  pAndLoop : List String → Expression → Nat → Except String (Expression × Nat)
  pOr : List String → Nat → Except String (Expression × Nat)
  pOrLoop : List String → Expression → Nat → Except String (Expression × Nat)
  pCmp : List String → Nat → Except String (Expression × Nat)
  pUn : List String → Nat → Except String (Expression × Nat)
  pPrim : List String → Nat → Except String (Expression × Nat)
  pArgs : List String → List Expression → Nat → Except String (List Expression × Nat)

/-- Error used only when the fuel runs out; the fuel chosen by
parse_and_expression below is always sufficient, since every unit of fuel
spent corresponds to descending one grammar level or consuming a token. -/
def outOfFuel : String := "parser fuel exhausted"

/-- Embeds the recursive-descent parser of csv_parser.py lines 101-218.
Every recursive call of the Python functions becomes a call into the pack of
the next-lower fuel, making the family structurally recursive on fuel. -/
def mkParsers : Nat → ParserPack
  | 0 =>
    { pAnd := fun _ _ => .error outOfFuel
      pAndLoop := fun _ _ _ => .error outOfFuel
      pOr := fun _ _ => .error outOfFuel
      pOrLoop := fun _ _ _ => .error outOfFuel
      pCmp := fun _ _ => .error outOfFuel
      pUn := fun _ _ => .error outOfFuel
      pPrim := fun _ _ => .error outOfFuel
      pArgs := fun _ _ _ => .error outOfFuel }
  | fuel + 1 =>
    let P := mkParsers fuel
    { -- _parse_and_expression (lines 113-122): entry rule, lowest precedence
      pAnd := fun tokens pos => do
        let (l, p) ← P.pOr tokens pos
        P.pAndLoop tokens l p
      pAndLoop := fun tokens left pos =>
        if pos < tokens.length && strUpper (tokens.getD pos "") == "AND" then do
          let (r, p) ← P.pOr tokens (pos + 1)
          P.pAndLoop tokens (.BinaryExpression .AND left r) p
        else .ok (left, pos)
      -- _parse_or_expression (lines 101-110)
      pOr := fun tokens pos => do
        let (l, p) ← P.pCmp tokens pos
        P.pOrLoop tokens l p
      pOrLoop := fun tokens left pos =>
        if pos < tokens.length && strUpper (tokens.getD pos "") == "OR" then do
          let (r, p) ← P.pCmp tokens (pos + 1)
          P.pOrLoop tokens (.BinaryExpression .OR left r) p
        else .ok (left, pos)
      -- _parse_comparison_expression (lines 125-145): at most one comparison
      pCmp := fun tokens pos => do
        let (l, p) ← P.pUn tokens pos
        if p < tokens.length then
          match cmpLookup (tokens.getD p "") with
          | some op => do
            let (r, p2) ← P.pUn tokens (p + 1)
            .ok (.BinaryExpression op l r, p2)
          | none => .ok (l, p)
        else .ok (l, p)
      -- _parse_unary_expression (lines 148-155)
      pUn := fun tokens pos =>
        if pos < tokens.length && strUpper (tokens.getD pos "") == "NOT" then do
          let (e, p) ← P.pPrim tokens (pos + 1)
          .ok (.UnaryExpression .NOT e, p)
        else P.pPrim tokens pos
      -- _parse_primary_expression (lines 158-218)
      pPrim := fun tokens pos =>
        if pos ≥ tokens.length then .error "Unexpected end of expression"
        else
          let token := tokens.getD pos ""
          if token == "(" then do
            let (e, p) ← P.pAnd tokens (pos + 1)
            if p ≥ tokens.length || tokens.getD p "" != ")" then
              .error "Missing closing parenthesis"
            else .ok (e, p + 1)
          else if isNumericToken token then
            .ok (.Literal (.pfloat (strToFloat token)), pos + 1)
          else if isIdentToken token then
            let nextPos := pos + 1
            if nextPos < tokens.length && tokens.getD nextPos "" == "." &&
               nextPos + 1 < tokens.length && tokens.getD (nextPos + 1) "" == "(" then
              -- function-call branch, lines 186-213
              let np := nextPos + 2
              if np < tokens.length && tokens.getD np "" != ")" then do
                let (args, p) ← P.pArgs tokens [] np
                if p ≥ tokens.length || tokens.getD p "" != ")" then
                  .error "Missing closing parenthesis in function call"
                else .ok (.FunctionCall token args, p + 1)
              else
                if np ≥ tokens.length || tokens.getD np "" != ")" then
                  .error "Missing closing parenthesis in function call"
                else .ok (.FunctionCall token [], np + 1)
            else .ok (.VariableReference token, nextPos)
          else .error ("Unexpected token: " ++ token)
      -- function-call argument loop, lines 196-208
      pArgs := fun tokens acc np => do
        let (arg, p) ← P.pOr tokens np
        let acc2 := acc ++ [arg]
        if p ≥ tokens.length then .error "Missing closing parenthesis in function call"
        else if tokens.getD p "" == ")" then .ok (acc2, p)
        else if tokens.getD p "" == "," then P.pArgs tokens acc2 (p + 1)
        else .error ("Expected " ++ squote ++ "," ++ squote ++ " or " ++ squote ++ ")" ++
                     squote ++ " in function call, got " ++ squote ++ tokens.getD p "" ++ squote) }

/-- Fuel passed to the pack by the top-level parse: generous linear bound,
always sufficient because each grammar descent or loop iteration both
consumes at most eight fuel and makes progress in the token stream. -/
def parserFuel (tokens : List String) : Nat := 8 * (tokens.length + 2)

/-- Embeds the top-level call _parse_and_expression(tokens, 0) of
normalize_expression_syntax (csv_parser.py line 81). -/
def parse_and_expression (tokens : List String) : Except String (Expression × Nat) :=
  (mkParsers (parserFuel tokens)).pAnd tokens 0

/-- Python repr of a list of strings, as produced by the f-string of the
trailing-token error (csv_parser.py line 84). -/
def pyListRepr (ts : List String) : String :=
  "[" ++ joinSep ", " (ts.map (fun t => squote ++ t ++ squote)) ++ "]"

/-- Embeds the try-block body of normalize_expression_syntax (csv_parser.py
lines 78-86): tokenize, parse from the AND level, and reject leftover
tokens. -/
def runParse (n : String) : Except String Expression := do
  let tokens ← pyTokenize n
  let (ast, remaining) ← parse_and_expression tokens
  if remaining < tokens.length then
    .error ("Unexpected tokens after parsing: " ++ pyListRepr (tokens.drop remaining))
  else .ok ast

/-- Embeds normalize_expression_syntax (csv_parser.py lines 40-88), the
interface the spec calls normalize_and_parse: none for empty or whitespace
input, otherwise the parsed AST of the normalized text, with any tokenizer
or parser failure wrapped into the single failed-to-parse message built from
the normalized text and the cause. -/
def normalize_and_parse (s : String) : Except String (Option Expression) :=
  if pyStrip s = "" then .ok none
  else
    let n := normalizeText s
    match runParse n with
    | .ok ast => .ok (some ast)
    | .error e => .error ("Failed to parse expression " ++ squote ++ n ++ squote ++ ": " ++ e)

/- ===========================================================================
   Serialization: src/cslm/serialization.py lines 33-73
   =========================================================================== -/

/-- Shape of the per-node dict produced by expr_to_dict: a discriminant in
the "type" key (binary, var, lit, unary) plus exactly the fields of the
corresponding Expression variant, with operators stored as their enum value
strings. -/
inductive EDict where
  | dbinary (operator : String) (left right : EDict)
  | dvar (name : String)
  | dlit (value : PyVal)
  | dunary (operator : String) (operand : EDict)
deriving DecidableEq

/-- Embeds expr_to_dict (serialization.py lines 33-53) on a present
expression.  The Python function has isinstance branches for
BinaryExpression, VariableReference, Literal and UnaryExpression only; any
other Expression subtype reaches the trailing raise TypeError, which is what
a FunctionCall node does. -/
def expr_to_dict : Expression → Except String EDict
  | .BinaryExpression op l r => do
    let dl ← expr_to_dict l
    let dr ← expr_to_dict r
    .ok (.dbinary op.value dl dr)
  | .VariableReference n => .ok (.dvar n)
  | .Literal v => .ok (.dlit v)
  | .UnaryExpression op e => do
    let de ← expr_to_dict e
    .ok (.dunary op.value de)
  | .FunctionCall _ _ => .error "Unsupported Expression type: FunctionCall"

/-- Embeds the enum constructor BinaryOperator(value) used by
expr_from_dict: the member with the given value string, or a ValueError. -/
def binaryOperatorOfValue (s : String) : Except String BinaryOperator :=
  match s with
  | "AND" => .ok .AND
  | "OR" => .ok .OR
  | "==" => .ok .EQUALS
  | "!=" => .ok .NOT_EQUALS
  | ">" => .ok .GREATER_THAN
  | ">=" => .ok .GREATER_EQUAL
  | "<" => .ok .LESS_THAN
  | "<=" => .ok .LESS_EQUAL
  | _ => .error ("not a valid BinaryOperator: " ++ s)

/-- Embeds the enum constructor UnaryOperator(value) used by
expr_from_dict. -/
def unaryOperatorOfValue (s : String) : Except String UnaryOperator :=
  match s with
  | "NOT" => .ok .NOT
  | _ => .error ("not a valid UnaryOperator: " ++ s)

/-- Embeds expr_from_dict (serialization.py lines 56-73) on a present
dict. -/
def expr_from_dict : EDict → Except String Expression
  | .dbinary op dl dr => do
    let o ← binaryOperatorOfValue op
    let l ← expr_from_dict dl
    let r ← expr_from_dict dr
    .ok (.BinaryExpression o l r)
  | .dvar n => .ok (.VariableReference n)
  | .dlit v => .ok (.Literal v)
  | .dunary op de => do
    let o ← unaryOperatorOfValue op
    let e ← expr_from_dict de
    .ok (.UnaryExpression o e)

/- ===========================================================================
   Survey model: src/cslm/model.py
   =========================================================================== -/

/-- Embeds dataclass VersionRange of model.py. -/
structure VersionRange where
  apply_from : Option Int := none
  apply_to : Option Int := none
deriving DecidableEq

/-- Embeds dataclass Variable of model.py. -/
structure Variable where
  name : String
  description : Option String := none
  data_type : Option String := none
deriving DecidableEq

/-- Embeds dataclass State of model.py. -/
structure State where
  id : String
  text : String
  entry_guard : Option Expression := none
  validation : Option Expression := none
  version : Option VersionRange := none
  block : Option String := none

/-- Embeds dataclass Transition of model.py. -/
structure Transition where
  from_state : String
  to_state : String
  guard : Option Expression := none

/-- Embeds dataclass Block of model.py. -/
structure Block where
  name : String
  parameters : List String := []
  state_ids : List String := []

/-- Embeds dataclass Survey of model.py (the free-form metadata mapping is
omitted: the analyzer never reads it). -/
structure Survey where
  name : String
  «variables» : List Variable := []
  states : List State := []
  transitions : List Transition := []
  blocks : List Block := []

/- ===========================================================================
   Analyzer: src/cslm/analyzer.py
   =========================================================================== -/

/-- Embeds dataclass ExpressionMetrics of analyzer.py; the Python set of
referenced names is a duplicate-free list here. -/
structure ExpressionMetrics where
  depth : Nat
  node_count : Nat
  variable_references : List String

/-- Embeds the Python set.update of variable-reference sets: insert each
element of the second operand that is not already present. -/
def unionVars (acc : List String) (vs : List String) : List String :=
  vs.foldl (fun a v => a.insert v) acc

/-- Embeds _analyze_expression (analyzer.py lines 38-66) on a present
expression.  The isinstance chain has branches for BinaryExpression,
UnaryExpression, VariableReference and Literal; a FunctionCall node matches
none of them, so it keeps the initial metrics: node_count 1, depth 0, no
variable references. -/
def analyzeExpressionCore : Expression → ExpressionMetrics
  | .BinaryExpression _ l r =>
    let L := analyzeExpressionCore l
    let R := analyzeExpressionCore r
    { depth := 1 + max L.depth R.depth
      node_count := 1 + L.node_count + R.node_count
      variable_references := unionVars L.variable_references R.variable_references }
  | .UnaryExpression _ e =>
    let O := analyzeExpressionCore e
    { depth := 1 + O.depth
      node_count := 1 + O.node_count
      variable_references := O.variable_references }
  | .VariableReference n => { depth := 0, node_count := 1, variable_references := [n] }
  | .Literal _ => { depth := 0, node_count := 1, variable_references := [] }
  | .FunctionCall _ _ => { depth := 0, node_count := 1, variable_references := [] }

/-- Embeds _analyze_expression including its None short-circuit (lines
40-41): depth 0, node_count 0, no references. -/
def analyzeExpression : Option Expression → ExpressionMetrics
  | none => { depth := 0, node_count := 0, variable_references := [] }
  | some e => analyzeExpressionCore e

/-- Embeds set(variable_by_name.keys()) (analyzer.py lines 158, 165). -/
def declaredVars (s : Survey) : List String :=
  s.variables.foldl (fun acc v => acc.insert v.name) []

/-- Embeds the accumulation of all_referenced_vars (analyzer.py lines
164-181): union of the reference sets of every state entry guard and
validation and every transition guard, in iteration order. -/
def allReferencedVars (s : Survey) : List String :=
  let a := s.states.foldl (fun acc st =>
    let acc := match st.entry_guard with
      | some g => unionVars acc (analyzeExpressionCore g).variable_references
      | none => acc
    match st.validation with
      | some v => unionVars acc (analyzeExpressionCore v).variable_references
      | none => acc) []
  s.transitions.foldl (fun acc t =>
    match t.guard with
    | some g => unionVars acc (analyzeExpressionCore g).variable_references
    | none => acc) a

/-- Embeds one pass of the usage-count loops (analyzer.py lines 194-208):
for each name in the reference set of one expression, increment that name's
count by one. -/
def bumpVars (f : String → Nat) (vs : List String) : String → Nat :=
  vs.foldl (fun g var => fun v => if v = var then g v + 1 else g v) f

/-- Per-state usage accumulation (analyzer.py lines 194-202): bump the
reference set of the entry guard when present, then of the validation. -/
def usageStateStep (f : String → Nat) (st : State) : String → Nat :=
  let f1 := match st.entry_guard with
    | some g => bumpVars f (analyzeExpressionCore g).variable_references
    | none => f
  match st.validation with
  | some v => bumpVars f1 (analyzeExpressionCore v).variable_references
  | none => f1

/-- Per-transition usage accumulation (analyzer.py lines 204-208). -/
def usageTransStep (f : String → Nat) (t : Transition) : String → Nat :=
  match t.guard with
  | some g => bumpVars f (analyzeExpressionCore g).variable_references
  | none => f

/-- Embeds report.variable_usage (analyzer.py lines 189-208) as a total
count function; names never bumped have count 0, matching both the
defaultdict and the explicit zero initialization of referenced names. -/
def variableUsage (s : Survey) : String → Nat :=
  s.transitions.foldl usageTransStep (s.states.foldl usageStateStep (fun _ => 0))

/-- Embeds the all_depths accumulation (analyzer.py lines 214-231): the
depth of every present entry guard, validation and transition guard, in
iteration order. -/
def allDepths (s : Survey) : List Nat :=
  let d := s.states.foldl (fun acc st =>
    let acc := match st.entry_guard with
      | some g => acc ++ [(analyzeExpressionCore g).depth]
      | none => acc
    match st.validation with
      | some v => acc ++ [(analyzeExpressionCore v).depth]
      | none => acc) []
  s.transitions.foldl (fun acc t =>
    match t.guard with
    | some g => acc ++ [(analyzeExpressionCore g).depth]
    | none => acc) d

/-- Embeds lines 233-236: max of all_depths, or the 0 the report field keeps
when the list is empty. -/
def maxExpressionDepth (s : Survey) : Nat :=
  (allDepths s).foldl max 0

/-- Embeds the defaultdict(list) forward adjacency (analyzer.py lines
258-263) as an association list in key-insertion order. -/
def addEdge (g : List (String × List String)) (a b : String) :
    List (String × List String) :=
  if g.any (fun p => p.1 = a) then
    g.map (fun p => if p.1 = a then (p.1, p.2 ++ [b]) else p)
  else g ++ [(a, [b])]

/-- Forward adjacency built from the transition list. -/
def buildOutgoing (ts : List Transition) : List (String × List String) :=
  ts.foldl (fun g t => addEdge g t.from_state t.to_state) []

/-- Embeds graph.get(node, the empty list). -/
def neighbors (g : List (String × List String)) (n : String) : List String :=
  match g.lookup n with
  | some l => l
  | none => []

/-- Embeds the iterative stack-based reachability of analyzer.py lines
274-283; the fuel bounds the number of pops, which never exceeds one plus
the number of pushes, itself at most the number of edges. -/
def reachLoop : Nat → List (String × List String) → List String → List String →
    List String
  | 0, _, _, r => r
  | _ + 1, _, [], r => r
  | fuel + 1, g, n :: rest, r =>
    if r.contains n then reachLoop fuel g rest r
    else
      let r2 := r.insert n
      reachLoop fuel g ((neighbors g n).filter (fun m => !r2.contains m) ++ rest) r2

/-- Index of the first occurrence of a string in a list (list.index in
Python); the caller only uses it on elements known to be present. -/
def idxOfStr (n : String) : List String → Nat
  | [] => 0
  | x :: xs => if x = n then 0 else idxOfStr n xs + 1

/-- Embeds the for-loop body over neighbors inside _find_cycles_dfs
(analyzer.py lines 76-84), threading the shared visited and rec_stack sets
and returning early on the first cycle; dfsF is the recursive call with the
path copy already bound. -/
def dfsNeighbors
    (dfsF : String → List String → List String → List String →
      Option (List String) × List String × List String) :
    List String → List String → List String → List String →
    Option (List String) × List String × List String
  | [], visited, recStack, _ => (none, visited, recStack)
  | n :: rest, visited, recStack, path =>
    if !(visited.contains n) then
      match dfsF n visited recStack path with
      | (some c, v, r) => (some c, v, r)
      | (none, v, r) => dfsNeighbors dfsF rest v r path
    else if recStack.contains n then
      (some (path.drop (idxOfStr n path) ++ [n]), visited, recStack)
    else dfsNeighbors dfsF rest visited recStack path

/-- Embeds _find_cycles_dfs (analyzer.py lines 69-87).  The triple returned
is (cycle-if-found, visited, rec_stack): the Python function mutates the two
shared sets in place, so they are threaded explicitly; rec_stack drops start
on normal exit (line 86) but not on the early cycle return.  The fuel bounds
the recursion depth, which never exceeds the number of distinct graph nodes
since each recursive call is guarded by the visited check. -/
def find_cycles_dfs (graph : List (String × List String)) :
    Nat → String → List String → List String → List String →
    Option (List String) × List String × List String
  | 0, _, visited, recStack, _ => (none, visited, recStack)
  | fuel + 1, start, visited, recStack, path =>
    let visited2 := visited.insert start
    let recStack2 := recStack.insert start
    let path2 := path ++ [start]
    match dfsNeighbors (fun a b c d => find_cycles_dfs graph fuel a b c d)
        (neighbors graph start) visited2 recStack2 path2 with
    | (some c, v, r) => (some c, v, r)
    | (none, v, r) => (none, v, r.erase start)

/-- Embeds the cycle-detection driver (analyzer.py lines 290-298): scan the
graph keys in insertion order, launching a DFS with a fresh rec_stack and
empty path from every key not yet visited, and stop at the first cycle. -/
def cycleLoop (graph : List (String × List String)) (dfsFuel : Nat) :
    List String → List String → Option (List String)
  | [], _ => none
  | k :: rest, visited =>
    if visited.contains k then cycleLoop graph dfsFuel rest visited
    else
      match find_cycles_dfs graph dfsFuel k visited [] [] with
      | (some c, _, _) => some c
      | (none, v, _) => cycleLoop graph dfsFuel rest v

/-- Insertion into an ascending list, for modelling Python sorted(). -/
def insSorted (x : String) : List String → List String
  | [] => [x]
  | y :: ys => if x ≤ y then x :: y :: ys else y :: insSorted x ys

/-- Embeds Python sorted() on a set of names (the inputs here are
duplicate-free): ascending lexicographic order. -/
def sortStrings (l : List String) : List String := l.foldr insSorted []

/-- Embeds the percent formatting with one decimal digit used by the
low-coverage warning f-string; the coverage values formatted are
non-negative.  (Ties at the half-digit, where Python rounds the nearest
double to even, do not occur for the ratios produced here.) -/
def fmt1 (q : PyFloat) : String :=
  let n : Int := (20 * q.num + (q.den : Int)) / (2 * (q.den : Int))
  toString (n / 10) ++ "." ++ toString (n % 10)

/-- Warning text of analyzer.py lines 316-319. -/
def msgUndefinedVars (l : List String) : String :=
  "Undefined variable references: " ++ joinSep ", " (sortStrings l)

/-- Warning text of analyzer.py lines 321-324. -/
def msgUnusedVars (l : List String) : String :=
  "Unused variables: " ++ joinSep ", " (sortStrings l)

/-- Warning text of analyzer.py lines 326-329. -/
def msgUnreachable (l : List String) : String :=
  "Unreachable states: " ++ joinSep ", " (sortStrings l)

/-- Warning text of analyzer.py lines 331-334. -/
def msgCycle (c : List String) : String :=
  "Cycle detected: " ++ joinSep " -> " c

/-- Warning text of analyzer.py lines 336-339. -/
def msgLowCoverage (p : PyFloat) : String :=
  "Low validation coverage: " ++ fmt1 p ++ "% of states have validation"

/-- Warning text of analyzer.py lines 341-344. -/
def msgMissingVersion (n : Nat) : String :=
  "Missing version metadata: " ++ toString n ++ " states"

/-- Warning text of analyzer.py lines 346-349. -/
def msgHighComplexity (d : Nat) : String :=
  "High expression complexity: max depth " ++ toString d

/-- Embeds SurveyReport.add_warning (analyzer.py lines 130-133): append
unless the exact text is already present. -/
def addWarning (ws : List String) (m : String) : List String :=
  if m ∈ ws then ws else ws ++ [m]

/-- Embeds the warning-synthesis block of analyze_survey (analyzer.py lines
316-349): the seven rules, evaluated in source order against the computed
report fields. -/
def buildWarnings (undefinedV unusedV unreachableV : List String)
    (hasCycles : Bool) (cycleEx : Option (List String)) (coverage : PyFloat)
    (withVersion totalStates maxDepth : Nat) : List String :=
  let ws : List String := []
  let ws := if undefinedV.isEmpty then ws else addWarning ws (msgUndefinedVars undefinedV)
  let ws := if unusedV.isEmpty then ws else addWarning ws (msgUnusedVars unusedV)
  let ws := if unreachableV.isEmpty then ws else addWarning ws (msgUnreachable unreachableV)
  let ws := if hasCycles then addWarning ws (msgCycle (cycleEx.getD [])) else ws
  let ws := if pfLt coverage ⟨50, 1⟩ then addWarning ws (msgLowCoverage coverage) else ws
  let ws := if withVersion = 0 ∧ 0 < totalStates then
      addWarning ws (msgMissingVersion (totalStates - withVersion)) else ws
  let ws := if 5 < maxDepth then addWarning ws (msgHighComplexity maxDepth) else ws
  ws

/-- Embeds dataclass SurveyReport of analyzer.py, restricted to the fields
the verified properties consume (the averaged statistics avg_expression_depth,
total_expression_nodes and the transition-density fields are computed from
the same walks and are not modelled). -/
structure SurveyReport where
  survey_name : String
  total_states : Nat
  total_transitions : Nat
  total_variables : Nat
  total_blocks : Nat
  variable_usage : String → Nat
  undefined_variables : List String
  unused_variables : List String
  entry_points : List String
  exit_points : List String
  unreachable_states : List String
  has_cycles : Bool
  cycle_example : Option (List String)
  max_expression_depth : Nat
  states_with_validation : Nat
  states_with_entry_guard : Nat
  states_with_version : Nat
  validation_coverage_percent : PyFloat
  warnings : List String

/-- Embeds analyze_survey (analyzer.py lines 136-351). -/
def analyze_survey (s : Survey) : SurveyReport :=
  let referenced := allReferencedVars s
  let declared := declaredVars s
  let undefinedV := referenced.filter (fun v => !declared.contains v)
  let unusedV := declared.filter (fun v => !referenced.contains v)
  let withValidation := (s.states.filter (fun st => st.validation.isSome)).length
  let withGuard := (s.states.filter (fun st => st.entry_guard.isSome)).length
  let withVersion := (s.states.filter (fun st => st.version.isSome)).length
  let coverage : PyFloat :=
    if 0 < s.states.length then
      PyFloat.mul (PyFloat.div ⟨(withValidation : Int), 1⟩ ⟨(s.states.length : Int), 1⟩) ⟨100, 1⟩
    else ⟨0, 1⟩
  let outgoing := buildOutgoing s.transitions
  let entryPoints := neighbors outgoing "START"
  let exitPoints := (s.states.filter (fun st => !outgoing.any (fun p => p.1 = st.id))).map (·.id)
  let reachable := reachLoop (s.transitions.length + 2) outgoing ["START"] []
  let unreachableV := s.states.foldl
    (fun acc st => if reachable.contains st.id then acc else acc.insert st.id) []
  let cyc := cycleLoop outgoing (2 * s.transitions.length + 2) (outgoing.map (·.1)) []
  let maxDepth := maxExpressionDepth s
  { survey_name := s.name
    total_states := s.states.length
    total_transitions := s.transitions.length
    total_variables := s.variables.length
    total_blocks := s.blocks.length
    variable_usage := variableUsage s
    undefined_variables := undefinedV
    unused_variables := unusedV
    entry_points := entryPoints
    exit_points := exitPoints
    unreachable_states := unreachableV
    has_cycles := cyc.isSome
    cycle_example := cyc
    max_expression_depth := maxDepth
    states_with_validation := withValidation
    states_with_entry_guard := withGuard
    states_with_version := withVersion
    validation_coverage_percent := coverage
    warnings := buildWarnings undefinedV unusedV unreachableV cyc.isSome cyc
      coverage withVersion s.states.length maxDepth }

/- ===========================================================================
   Derived predicates used by the claim statements
   =========================================================================== -/

/-- True when the expression contains no FunctionCall node, i.e. it is built
from the four variants that expr_to_dict serializes. -/
def funcFree : Expression → Bool
  | .BinaryExpression _ l r => funcFree l && funcFree r
  | .VariableReference _ => true
  | .Literal _ => true
  | .UnaryExpression _ e => funcFree e
  | .FunctionCall _ _ => false

/-- True when every Literal node of the expression carries a float value. -/
def floatLitsOnly : Expression → Bool
  | .BinaryExpression _ l r => floatLitsOnly l && floatLitsOnly r
  | .VariableReference _ => true
  | .Literal (.pfloat _) => true
  | .Literal _ => false
  | .UnaryExpression _ e => floatLitsOnly e
  | .FunctionCall _ args => args.attach.all (fun a => floatLitsOnly a.1)
decreasing_by
  all_goals simp_wf
  all_goals try omega
  all_goals have hm := List.sizeOf_lt_of_mem a.2
  all_goals omega

/-- True when the same list entry starts and ends the walk and every
consecutive pair of entries is a declared transition edge of the survey. -/
def isClosedWalk (s : Survey) (c : List String) : Bool :=
  (c.head? == c.getLast?) &&
  (c.zip c.tail).all (fun e => s.transitions.any
    (fun t => t.from_state == e.1 && t.to_state == e.2))

/-- The expressions of one state that qualify for usage counting: its entry
guard then its validation, when present. -/
def stateExprs (st : State) : List Expression :=
  st.entry_guard.toList ++ st.validation.toList

/-- The bodies whose variable references feed the usage counts: every
state entry guard, every state validation, every transition guard, in
analyzer iteration order. -/
def qualifyingExprs (s : Survey) : List Expression :=
  (s.states.flatMap stateExprs) ++ s.transitions.filterMap (·.guard)

/-- True when the expression mentions the variable, i.e. the name occurs in
the reference set the analyzer computes for that expression. -/
def mentions (v : String) (e : Expression) : Bool :=
  (analyzeExpressionCore e).variable_references.contains v

/-- True when none of the three keyword alternatives of the token regex
(AND, OR, NOT, case-insensitive) matches at the start of the string. -/
def kwFreeStart (s : String) : Bool :=
  (matchChars "AND".toList true s.toList).isNone &&
  (matchChars "OR".toList true s.toList).isNone &&
  (matchChars "NOT".toList true s.toList).isNone

/-- Invariant used for the parser induction: every expression an entry
point of the pack can return has float-only literals (for the two loop
entries and the argument loop, assuming the accumulator already does). -/
def packFloatInv (P : ParserPack) : Prop :=
  (∀ tokens pos e p, P.pAnd tokens pos = .ok (e, p) → floatLitsOnly e = true) ∧
  (∀ tokens left pos e p, floatLitsOnly left = true →
    P.pAndLoop tokens left pos = .ok (e, p) → floatLitsOnly e = true) ∧
  (∀ tokens pos e p, P.pOr tokens pos = .ok (e, p) → floatLitsOnly e = true) ∧
  (∀ tokens left pos e p, floatLitsOnly left = true →
    P.pOrLoop tokens left pos = .ok (e, p) → floatLitsOnly e = true) ∧
  (∀ tokens pos e p, P.pCmp tokens pos = .ok (e, p) → floatLitsOnly e = true) ∧
  (∀ tokens pos e p, P.pUn tokens pos = .ok (e, p) → floatLitsOnly e = true) ∧
  (∀ tokens pos e p, P.pPrim tokens pos = .ok (e, p) → floatLitsOnly e = true) ∧
  (∀ tokens acc np args p, acc.all floatLitsOnly = true →
    P.pArgs tokens acc np = .ok (args, p) → args.all floatLitsOnly = true)

/-- Expression with every serializable variant and both a negative integer
and a decimal float literal, used to exercise the serialization round
trip. -/
def roundTripSample : Expression :=
  .BinaryExpression .OR
    (.BinaryExpression .EQUALS (.VariableReference "BType1") (.Literal (.pint (-8))))
    (.UnaryExpression .NOT
      (.BinaryExpression .LESS_EQUAL (.Literal (.pfloat ⟨5, 2⟩))
        (.BinaryExpression .AND (.Literal (.pstr "Yes")) (.Literal (.pbool true)))))

/-- Substring test on the underlying character lists (Python in operator on
str). -/
def strContains (needle hay : String) : Bool :=
  (List.range (hay.toList.length + 1)).any
    (fun i => needle.toList.isPrefixOf (hay.toList.drop i))

/- ===========================================================================
   Concrete fixtures used by individual claims
   =========================================================================== -/

/-- Three-node linear survey START to S1 to S2, S1 guarded by declared X
(the survey of spec section 8, analyzer bullet). -/
def surveyLinear : Survey :=
  { name := "linear"
    «variables» := [{ name := "X" }]
    states := [{ id := "S1", text := "Q1", entry_guard := some (.VariableReference "X") },
               { id := "S2", text := "Q2" }]
    transitions := [{ from_state := "START", to_state := "S1" },
                    { from_state := "S1", to_state := "S2" }] }

/-- Survey whose transitions are exactly START to S1, S1 to S2, S2 to S1
(the cycle-detection fixture of spec section 8). -/
def surveyCyclic : Survey :=
  { name := "cyclic"
    states := [{ id := "S1", text := "Q1" }, { id := "S2", text := "Q2" }]
    transitions := [{ from_state := "START", to_state := "S1" },
                    { from_state := "S1", to_state := "S2" },
                    { from_state := "S2", to_state := "S1" }] }

/-- Survey with full validation coverage, shallow expressions, no
undefined or unused variables, no unreachable states and no cycles, but
no version metadata on any state. -/
def surveyCleanNoVersion : Survey :=
  { name := "cleanNoVersion"
    «variables» := [{ name := "X" }]
    states := [{ id := "S1", text := "Q1", validation := some (.VariableReference "X") }]
    transitions := [{ from_state := "START", to_state := "S1" }] }

/-- Same clean survey with version metadata present on its state. -/
def surveyCleanVersioned : Survey :=
  { name := "cleanVersioned"
    «variables» := [{ name := "X" }]
    states := [{ id := "S1", text := "Q1", validation := some (.VariableReference "X"),
                 version := some { apply_from := some 2204 } }]
    transitions := [{ from_state := "START", to_state := "S1" }] }

end CSLM

namespace CSLM

/- ===========================================================================
   Claim theorems
   =========================================================================== -/

/-- C1: parsing the dialect text with four identifiers and no parentheses,
normalize_expression_syntax returns AND(AND(A, OR(B, C)), D) — the OR chain
grouped deeper than AND because the entry rule is the AND level with the OR
level nested inside it — and not the conventional-precedence tree
OR(AND(A, B), AND(C, D)). -/
theorem C1_or_groups_deeper_than_and :
    normalize_and_parse "A & B | C & D" =
      .ok (some (.BinaryExpression .AND
        (.BinaryExpression .AND (.VariableReference "A")
          (.BinaryExpression .OR (.VariableReference "B") (.VariableReference "C")))
        (.VariableReference "D"))) ∧
    normalize_and_parse "A & B | C & D" ≠
      .ok (some (.BinaryExpression .OR
        (.BinaryExpression .AND (.VariableReference "A") (.VariableReference "B"))
        (.BinaryExpression .AND (.VariableReference "C") (.VariableReference "D")))) := by
  have e : normalize_and_parse "A & B | C & D" =
      .ok (some (.BinaryExpression .AND
        (.BinaryExpression .AND (.VariableReference "A")
          (.BinaryExpression .OR (.VariableReference "B") (.VariableReference "C")))
        (.VariableReference "D"))) := rfl
  refine ⟨e, ?_⟩
  rw [e]
  intro h
  simp at h

/-- C2: a single-argument dialect function call parses to a FunctionCall
node, but a two-argument call fails, because the token regex of _tokenize
has no comma alternative: the comma is silently dropped and the argument
loop then rejects the second argument token.  The second conjunct evaluates
the code at the failing input of the claim. -/
theorem C2_function_call_arguments :
    normalize_and_parse "is.(X)" =
      .ok (some (.FunctionCall "is" [.VariableReference "X"])) ∧
    normalize_and_parse "f.(a, b)" =
      .error ("Failed to parse expression " ++ squote ++ "f.(a, b)" ++ squote ++
        ": Expected " ++ squote ++ "," ++ squote ++ " or " ++ squote ++ ")" ++ squote ++
        " in function call, got " ++ squote ++ "b" ++ squote) :=
  ⟨rfl, rfl⟩

/-- C4 counterexample: for the failing input with the ampersand, the raised
message embeds the normalized text (with the ampersand already rewritten to
AND) and does not contain the original pre-normalization input text. -/
theorem C4_counterexample_message_is_normalized :
    normalize_and_parse "A &" =
      .error ("Failed to parse expression " ++ squote ++ "A  AND " ++ squote ++
        ": Unexpected end of expression") ∧
    strContains "A &" ("Failed to parse expression " ++ squote ++ "A  AND " ++ squote ++
        ": Unexpected end of expression") = false :=
  ⟨rfl, by decide⟩

/-- C5: on the linear survey START to S1 to S2 with S1 guarded by declared
X, the analyzer reports two states, entry points exactly the successors of
the START sentinel, exit point S2, no unreachable state, no cycle and no
undefined variable. -/
theorem C5_linear_survey_report :
    (analyze_survey surveyLinear).total_states = 2 ∧
    (analyze_survey surveyLinear).entry_points = ["S1"] ∧
    (analyze_survey surveyLinear).exit_points = ["S2"] ∧
    (analyze_survey surveyLinear).unreachable_states = [] ∧
    (analyze_survey surveyLinear).has_cycles = false ∧
    (analyze_survey surveyLinear).undefined_variables = [] := by
  decide

/-- C6: on the survey with transitions START to S1, S1 to S2, S2 to S1, the
analyzer flags a cycle and reports the walk S1, S2, S1 — beginning and
ending at the same state, every consecutive pair a declared edge. -/
theorem C6_cycle_example_is_closed_walk :
    (analyze_survey surveyCyclic).has_cycles = true ∧
    (analyze_survey surveyCyclic).cycle_example = some ["S1", "S2", "S1"] ∧
    isClosedWalk surveyCyclic ["S1", "S2", "S1"] = true := by
  decide

/-- Inversion for a successful Except bind. -/
theorem exceptBind_ok {α β : Type} {x : Except String α} {f : α → Except String β} {b : β}
    (h : (x >>= f) = .ok b) : ∃ a, x = .ok a ∧ f a = .ok b := by
  cases x with
  | error e => simp [Bind.bind, Except.bind] at h
  | ok a => exact ⟨a, rfl, by simpa [Bind.bind, Except.bind] using h⟩

/-- Round trip of the binary operator value strings. -/
theorem binaryOperator_value_round (op : BinaryOperator) :
    binaryOperatorOfValue op.value = .ok op := by
  cases op
  all_goals rfl

/-- Round trip of the unary operator value strings. -/
theorem unaryOperator_value_round (op : UnaryOperator) :
    unaryOperatorOfValue op.value = .ok op := by
  cases op
  rfl

/-- C7 amended: for every expression built from the four variants that
expr_to_dict handles (equivalently: every FunctionCall-free expression),
deserializing the serialized dict gives back the same expression, with the
dict carrying a discriminant tag plus exactly the variant fields and
operators serialized as their textual value strings. -/
theorem C7_roundtrip_funcfree : ∀ (e : Expression), funcFree e = true →
    ((expr_to_dict e) >>= expr_from_dict) = .ok e
  | .BinaryExpression op l r, h => by
    simp only [funcFree, Bool.and_eq_true] at h
    obtain ⟨dl, hdl, hfl⟩ := exceptBind_ok (C7_roundtrip_funcfree l h.1)
    obtain ⟨dr, hdr, hfr⟩ := exceptBind_ok (C7_roundtrip_funcfree r h.2)
    simp [expr_to_dict, hdl, hdr, Bind.bind, Except.bind, expr_from_dict,
      binaryOperator_value_round, hfl, hfr]
  | .VariableReference n, _ => rfl
  | .Literal v, _ => rfl
  | .UnaryExpression op e, h => by
    simp only [funcFree] at h
    obtain ⟨de, hde, hfe⟩ := exceptBind_ok (C7_roundtrip_funcfree e h)
    simp [expr_to_dict, hde, Bind.bind, Except.bind, expr_from_dict,
      unaryOperator_value_round, hfe]
  | .FunctionCall n args, h => by simp [funcFree] at h

/-- C7 counterexample: the claim includes the FunctionCall variant, but
expr_to_dict has no branch for it and raises TypeError instead of
serializing it, so the round trip fails on a FunctionCall node. -/
theorem C7_counterexample_function_call :
    expr_to_dict (.FunctionCall "is" [.VariableReference "X"]) =
      .error "Unsupported Expression type: FunctionCall" := rfl

/-- C7 witness: the round trip evaluated on a concrete expression using all
four serializable variants, a negative integer literal and a decimal float
literal. -/
theorem C7_roundtrip_witness :
    funcFree roundTripSample = true ∧
    ((expr_to_dict roundTripSample) >>= expr_from_dict) = .ok roundTripSample :=
  ⟨by decide, C7_roundtrip_funcfree roundTripSample (by decide)⟩

/-- C3 counterexample: a survey with full validation coverage, shallow
expressions and no undefined, unused, unreachable or cyclic issue still
produces a warning (the version-metadata rule of analyzer.py lines 341-344),
so the zero-warnings part of the claim fails as stated. -/
theorem C3_counterexample_version_warning :
    pfLt (analyze_survey surveyCleanNoVersion).validation_coverage_percent ⟨50, 1⟩ = false ∧
    (analyze_survey surveyCleanNoVersion).max_expression_depth ≤ 5 ∧
    (analyze_survey surveyCleanNoVersion).undefined_variables = [] ∧
    (analyze_survey surveyCleanNoVersion).unused_variables = [] ∧
    (analyze_survey surveyCleanNoVersion).unreachable_states = [] ∧
    (analyze_survey surveyCleanNoVersion).has_cycles = false ∧
    (analyze_survey surveyCleanNoVersion).warnings = ["Missing version metadata: 1 states"] := by
  decide

/-- C4 amended: whenever the tokenize/parse pipeline fails on a non-empty,
non-whitespace input, normalize_expression_syntax raises the single wrapped
error built from the NORMALIZED text (the local variable is reassigned by
the rewrites before the try block) and the underlying cause message. -/
theorem C4_amended_wrapped_error (s c : String) (h1 : ¬ (pyStrip s = ""))
    (h2 : runParse (normalizeText s) = .error c) :
    normalize_and_parse s =
      .error ("Failed to parse expression " ++ squote ++ normalizeText s ++ squote ++
        ": " ++ c) := by
  simp [normalize_and_parse, h1, h2]

/-- C4 amended witness: the wrapped-error shape evaluated at the concrete
failing input with the ampersand. -/
theorem C4_amended_witness :
    ¬ (pyStrip "A &" = "") ∧
    runParse (normalizeText "A &") = .error "Unexpected end of expression" ∧
    normalize_and_parse "A &" =
      .error ("Failed to parse expression " ++ squote ++ normalizeText "A &" ++ squote ++
        ": Unexpected end of expression") :=
  ⟨by decide, rfl,
    C4_amended_wrapped_error "A &" "Unexpected end of expression" (by decide) rfl⟩

/-- Added warning is a member of the result. -/
theorem mem_addWarning_self (ws : List String) (m : String) : m ∈ addWarning ws m := by
  unfold addWarning
  split
  · assumption
  · simp

/-- Prior warnings stay in the result. -/
theorem mem_addWarning_mono (ws : List String) (m x : String) (h : x ∈ ws) :
    x ∈ addWarning ws m := by
  unfold addWarning
  split
  · exact h
  · simp [h]

/-- The warnings field is the rule set applied to the other report fields. -/
theorem analyze_survey_warnings_eq (s : Survey) :
    (analyze_survey s).warnings = buildWarnings (analyze_survey s).undefined_variables
      (analyze_survey s).unused_variables (analyze_survey s).unreachable_states
      (analyze_survey s).has_cycles (analyze_survey s).cycle_example
      (analyze_survey s).validation_coverage_percent (analyze_survey s).states_with_version
      (analyze_survey s).total_states (analyze_survey s).max_expression_depth := rfl

/-- C3 amended: coverage below 50 percent always yields the low-coverage
warning and expression depth above 5 always yields the high-complexity
warning; and a survey with no undefined, unused, unreachable or cyclic
issue that meets neither threshold AND carries version metadata on at least
one state has an empty warnings list (the version condition is the
amendment: the code has a seventh warning rule, missing version metadata,
that fires on any non-empty survey whose states all lack version data). -/
theorem C3_amended_warning_rules (s : Survey) :
    (pfLt (analyze_survey s).validation_coverage_percent ⟨50, 1⟩ = true →
      msgLowCoverage (analyze_survey s).validation_coverage_percent ∈
        (analyze_survey s).warnings) ∧
    (5 < (analyze_survey s).max_expression_depth →
      msgHighComplexity (analyze_survey s).max_expression_depth ∈
        (analyze_survey s).warnings) ∧
    ((analyze_survey s).undefined_variables = [] →
     (analyze_survey s).unused_variables = [] →
     (analyze_survey s).unreachable_states = [] →
     (analyze_survey s).has_cycles = false →
     pfLt (analyze_survey s).validation_coverage_percent ⟨50, 1⟩ = false →
     (analyze_survey s).max_expression_depth ≤ 5 →
     0 < (analyze_survey s).states_with_version →
     (analyze_survey s).warnings = []) := by
  rw [analyze_survey_warnings_eq]
  refine ⟨?_, ?_, ?_⟩
  · intro h
    simp only [buildWarnings, h, if_true]
    split
    · apply mem_addWarning_mono
      split
      · apply mem_addWarning_mono
        exact mem_addWarning_self _ _
      · exact mem_addWarning_self _ _
    · split
      · apply mem_addWarning_mono
        exact mem_addWarning_self _ _
      · exact mem_addWarning_self _ _
  · intro h
    simp only [buildWarnings, h, if_true]
    exact mem_addWarning_self _ _
  · intro h1 h2 h3 h4 h5 h6 h7
    simp [buildWarnings, h1, h2, h3, h4, h5, Nat.not_lt.mpr h6,
      Nat.pos_iff_ne_zero.mp h7]

/-- C3 amended witness: the amended zero-warnings rule applied to the
version-carrying clean survey. -/
theorem C3_amended_witness : (analyze_survey surveyCleanVersioned).warnings = [] :=
  (C3_amended_warning_rules surveyCleanVersioned).2.2 (by decide) (by decide)
    (by decide) (by decide) (by decide) (by decide) (by decide)

/-- Unfolding lemma: union with an empty second operand. -/
theorem unionVars_nil (acc : List String) : unionVars acc [] = acc := rfl

/-- Unfolding lemma: union step. -/
theorem unionVars_cons (acc : List String) (x : String) (xs : List String) :
    unionVars acc (x :: xs) = unionVars (acc.insert x) xs := rfl

/-- Set union keeps the accumulator duplicate-free. -/
theorem unionVars_nodup : ∀ (vs acc : List String), acc.Nodup → (unionVars acc vs).Nodup
  | [], _, h => h
  | x :: xs, acc, h => unionVars_nodup xs (acc.insert x) h.insert

/-- The reference set the analyzer computes is duplicate-free, i.e. a
faithful image of the Python set. -/
theorem varRefs_nodup : ∀ (e : Expression),
    (analyzeExpressionCore e).variable_references.Nodup
  | .BinaryExpression _ l r => by
    simp only [analyzeExpressionCore]
    exact unionVars_nodup _ _ (varRefs_nodup l)
  | .UnaryExpression _ e => by
    simp only [analyzeExpressionCore]
    exact varRefs_nodup e
  | .VariableReference _ => by simp [analyzeExpressionCore]
  | .Literal _ => by simp [analyzeExpressionCore]
  | .FunctionCall _ _ => by simp [analyzeExpressionCore]

/-- Unfolding lemma: bump over an empty set. -/
theorem bumpVars_nil (f : String → Nat) : bumpVars f [] = f := rfl

/-- Unfolding lemma: bump step. -/
theorem bumpVars_cons (f : String → Nat) (x : String) (xs : List String) :
    bumpVars f (x :: xs) =
      bumpVars (fun w => if w = x then f w + 1 else f w) xs := rfl

/-- Iterating the elements of a duplicate-free set and incrementing each
element's count adds exactly one to a name's count iff the name is in the
set. -/
theorem bumpVars_eq : ∀ (vs : List String) (f : String → Nat) (v : String), vs.Nodup →
    bumpVars f vs v = f v + (if v ∈ vs then 1 else 0)
  | [], f, v, _ => by simp [bumpVars]
  | x :: xs, f, v, h => by
    rw [bumpVars_cons, bumpVars_eq xs _ v (List.Nodup.of_cons h)]
    by_cases hvx : v = x
    · subst hvx
      have hx : v ∉ xs := (List.nodup_cons.mp h).1
      simp [hx]
    · simp [hvx]

/-- Membership and the Bool contains agree. -/
theorem containsStr_iff (l : List String) (v : String) : l.contains v = true ↔ v ∈ l := by
  simp

/-- The Bool mention test is true exactly on membership in the computed
reference set. -/
theorem mentions_true {v : String} {g : Expression}
    (h : v ∈ (analyzeExpressionCore g).variable_references) : mentions v g = true := by
  simpa [mentions] using h

/-- The Bool mention test is false exactly on non-membership. -/
theorem mentions_false {v : String} {g : Expression}
    (h : v ∉ (analyzeExpressionCore g).variable_references) : mentions v g = false := by
  cases hm : mentions v g
  · rfl
  · exact absurd (by simpa [mentions] using hm) h

/-- One state contributes, to a name's usage count, exactly the number of
its qualifying expressions that mention the name. -/
theorem usageStateStep_eq (f : String → Nat) (st : State) (v : String) :
    usageStateStep f st v = f v + (stateExprs st).countP (mentions v) := by
  unfold usageStateStep stateExprs
  cases hg : st.entry_guard with
  | none =>
    cases hv : st.validation with
    | none => simp
    | some g =>
      dsimp only
      rw [bumpVars_eq _ _ _ (varRefs_nodup g)]
      by_cases h : v ∈ (analyzeExpressionCore g).variable_references
      · simp [List.countP_cons, mentions_true h, h]
      · simp [List.countP_cons, mentions_false h, h]
  | some g =>
    cases hv : st.validation with
    | none =>
      dsimp only
      rw [bumpVars_eq _ _ _ (varRefs_nodup g)]
      by_cases h : v ∈ (analyzeExpressionCore g).variable_references
      · simp [List.countP_cons, mentions_true h, h]
      · simp [List.countP_cons, mentions_false h, h]
    | some g2 =>
      dsimp only
      rw [bumpVars_eq _ _ _ (varRefs_nodup g2), bumpVars_eq _ _ _ (varRefs_nodup g)]
      by_cases h1 : v ∈ (analyzeExpressionCore g).variable_references
      · by_cases h2 : v ∈ (analyzeExpressionCore g2).variable_references
        · simp [List.countP_cons, mentions_true h1, mentions_true h2, h1, h2]
        · simp [List.countP_cons, mentions_true h1, mentions_false h2, h1, h2]
      · by_cases h2 : v ∈ (analyzeExpressionCore g2).variable_references
        · simp [List.countP_cons, mentions_false h1, mentions_true h2, h1, h2]
        · simp [List.countP_cons, mentions_false h1, mentions_false h2, h1, h2]

/-- One transition contributes, to a name's usage count, exactly one when
its guard is present and mentions the name. -/
theorem usageTransStep_eq (f : String → Nat) (t : Transition) (v : String) :
    usageTransStep f t v = f v + (t.guard.toList).countP (mentions v) := by
  unfold usageTransStep
  cases hg : t.guard with
  | none => simp
  | some g =>
    dsimp only
    rw [bumpVars_eq _ _ _ (varRefs_nodup g)]
    by_cases h : v ∈ (analyzeExpressionCore g).variable_references
    · simp [List.countP_cons, mentions_true h, h]
    · simp [List.countP_cons, mentions_false h, h]

/-- Folding the per-state accumulation over a state list counts, per name,
the qualifying state expressions that mention it. -/
theorem usageStates_eq : ∀ (l : List State) (f : String → Nat) (v : String),
    (l.foldl usageStateStep f) v = f v + (l.flatMap stateExprs).countP (mentions v)
  | [], f, v => by simp
  | st :: rest, f, v => by
    rw [List.foldl_cons, usageStates_eq rest _ v, usageStateStep_eq]
    simp [List.countP_append]
    omega

/-- Folding the per-transition accumulation over a transition list counts,
per name, the present guards that mention it. -/
theorem usageTrans_eq : ∀ (l : List Transition) (f : String → Nat) (v : String),
    (l.foldl usageTransStep f) v = f v + (l.filterMap (·.guard)).countP (mentions v)
  | [], f, v => by simp
  | t :: rest, f, v => by
    rw [List.foldl_cons, usageTrans_eq rest _ v, usageTransStep_eq]
    cases ht : t.guard with
    | none => simp [ht]
    | some g =>
      simp [ht, List.countP_cons]
      omega

/-- C9: for every survey and name, the usage count reported by the analyzer
equals the number of qualifying expressions (state entry guards, state
validations, transition guards) that mention the name — one per expression,
not de-duplicated across expressions but de-duplicated within one. -/
theorem C9_usage_counts (s : Survey) (v : String) :
    (analyze_survey s).variable_usage v = (qualifyingExprs s).countP (mentions v) := by
  have hvu : (analyze_survey s).variable_usage = variableUsage s := rfl
  rw [hvu]
  unfold variableUsage qualifyingExprs
  rw [usageTrans_eq, usageStates_eq]
  simp [List.countP_append]

/-- Scanning an empty character list yields no tokens, for any fuel. -/
theorem scanAux_nil (n : Nat) : scanAux n [] = [] := by
  cases n
  · rfl
  · rfl

/-- Identifier-starting characters are none of the literal operator
characters of the token regex. -/
theorem identStart_ne (c : Char) (h : identStart c = true) :
    '(' ≠ c ∧ ')' ≠ c ∧ '=' ≠ c ∧ '!' ≠ c ∧ '<' ≠ c ∧ '>' ≠ c ∧ '.' ≠ c := by
  refine ⟨?_, ?_, ?_, ?_, ?_, ?_, ?_⟩
  all_goals intro he
  all_goals subst he
  all_goals exact absurd h (by decide)

/-- A literal alternative fails when its first character differs. -/
theorem matchChars_ne_head (d : Char) (ds : List Char) (c : Char) (cs : List Char)
    (h : ¬ d = c) : matchChars (d :: ds) false (c :: cs) = none := by
  simp [matchChars, h]

/-- Shape extracted from a full identifier match: nonempty, identifier
start, and every following character an identifier character. -/
theorem isIdentToken_spec (s : String) (h : isIdentToken s = true) :
    ∃ c rest, s.toList = c :: rest ∧ identStart c = true ∧
      rest.dropWhile identChar = [] ∧ rest.takeWhile identChar = rest := by
  unfold isIdentToken at h
  cases hti : takeIdent s.toList with
  | none => rw [hti] at h; simp at h
  | some pr =>
    obtain ⟨m, r⟩ := pr
    rw [hti] at h
    cases r with
    | cons _ _ => simp at h
    | nil =>
      unfold takeIdent at hti
      cases hsl : s.toList with
      | nil => rw [hsl] at hti; simp at hti
      | cons c rest =>
        rw [hsl] at hti
        by_cases his : identStart c = true
        · refine ⟨c, rest, rfl, his, ?_, ?_⟩
          · simp only [his, if_true] at hti
            exact (Prod.mk.injEq _ _ _ _ ▸ (Option.some.injEq _ _ ▸ hti :
              (c :: rest.takeWhile identChar, rest.dropWhile identChar) = (m, []))).2
          · have hd : rest.dropWhile identChar = [] := by
              simp only [his, if_true] at hti
              exact (Prod.mk.injEq _ _ _ _ ▸ (Option.some.injEq _ _ ▸ hti :
                (c :: rest.takeWhile identChar, rest.dropWhile identChar) = (m, []))).2
            have hw := @List.takeWhile_append_dropWhile _ identChar rest
            rw [hd, List.append_nil] at hw
            exact hw
        · simp [his] at hti

/-- The identity String.mk of toList. -/
theorem string_mk_toList (s : String) : String.mk s.toList = s := rfl

/-- C8 amended: a maximal identifier-shaped token whose start does not
match any of the keyword alternatives AND / OR / NOT (case-insensitively)
tokenizes as that single identifier token.  (Identifiers that do start with
a keyword prefix are split instead; see the counterexample.) -/
theorem C8_amended_identifier_single_token (s : String) (h1 : isIdentToken s = true)
    (h2 : kwFreeStart s = true) : pyTokenizeList s = [s] := by
  obtain ⟨c, rest, hsl, his, hdrop, htake⟩ := isIdentToken_spec s h1
  unfold kwFreeStart at h2
  rw [hsl] at h2
  simp only [Bool.and_eq_true, Option.isNone_iff_eq_none] at h2
  obtain ⟨⟨hAnd, hOr⟩, hNot⟩ := h2
  have hne := identStart_ne c his
  have htok : tok1 (c :: rest) = some (c :: rest, []) := by
    have e1 : matchChars "(".toList false (c :: rest) = none :=
      matchChars_ne_head _ _ _ _ hne.1
    have e2 : matchChars ")".toList false (c :: rest) = none :=
      matchChars_ne_head _ _ _ _ hne.2.1
    have e6 : matchChars "==".toList false (c :: rest) = none :=
      matchChars_ne_head _ _ _ _ hne.2.2.1
    have e7 : matchChars "!=".toList false (c :: rest) = none :=
      matchChars_ne_head _ _ _ _ hne.2.2.2.1
    have e8 : matchChars "<=".toList false (c :: rest) = none :=
      matchChars_ne_head _ _ _ _ hne.2.2.2.2.1
    have e9 : matchChars ">=".toList false (c :: rest) = none :=
      matchChars_ne_head _ _ _ _ hne.2.2.2.2.2.1
    have e10 : matchChars "<".toList false (c :: rest) = none :=
      matchChars_ne_head _ _ _ _ hne.2.2.2.2.1
    have e11 : matchChars ">".toList false (c :: rest) = none :=
      matchChars_ne_head _ _ _ _ hne.2.2.2.2.2.1
    have e12 : matchChars ".".toList false (c :: rest) = none :=
      matchChars_ne_head _ _ _ _ hne.2.2.2.2.2.2
    have e13 : takeIdent (c :: rest) = some (c :: rest, []) := by
      unfold takeIdent
      simp only [his, if_true, htake, hdrop]
    unfold tok1
    rw [e1, e2, hAnd, hOr, hNot, e6, e7, e8, e9, e10, e11, e12, e13]
    rfl
  unfold pyTokenizeList
  rw [hsl]
  simp only [List.length_cons]
  rw [scanAux, htok]
  dsimp only
  rw [scanAux_nil]
  rw [← hsl, string_mk_toList]

/-- C8 counterexample: the keyword alternatives have no word-boundary
anchoring, so the identifier-shaped run Android is split into the
case-insensitive keyword match And plus the remainder roid instead of being
produced as one identifier token. -/
theorem C8_counterexample_keyword_split :
    pyTokenizeList "Android" = ["And", "roid"] ∧
    pyTokenizeList "Android" ≠ ["Android"] := by
  refine ⟨rfl, ?_⟩
  intro h
  rw [show pyTokenizeList "Android" = ["And", "roid"] from rfl] at h
  exact absurd h (by decide)

/-- C8 amended witness: the single-token rule applied to a concrete
identifier without a keyword prefix. -/
theorem C8_amended_witness :
    isIdentToken "BType1" = true ∧ kwFreeStart "BType1" = true ∧
    pyTokenizeList "BType1" = ["BType1"] :=
  ⟨by decide, by decide,
    C8_amended_identifier_single_token "BType1" (by decide) (by decide)⟩

/-- A function call has float-only literals when all its arguments do. -/
theorem floatLits_funcCall (n : String) (args : List Expression)
    (h : args.all floatLitsOnly = true) : floatLitsOnly (.FunctionCall n args) = true := by
  rw [List.all_eq_true] at h
  simp only [floatLitsOnly, List.all_eq_true]
  intro x _
  exact h x.1 x.2

/-- Every parser entry point of every fuel level preserves the float-only
literal invariant: numeric tokens are the only source of Literal nodes and
are always converted through float(). -/
theorem packFloatInv_mkParsers : ∀ fuel, packFloatInv (mkParsers fuel) := by
  intro fuel
  induction fuel with
  | zero =>
    refine ⟨fun t p e q h => ?_, fun t l p e q hl h => ?_, fun t p e q h => ?_,
      fun t l p e q hl h => ?_, fun t p e q h => ?_, fun t p e q h => ?_,
      fun t p e q h => ?_, fun t a n args q ha h => ?_⟩
    all_goals simp [mkParsers] at h
  | succ n ih =>
    obtain ⟨ihAnd, ihAndL, ihOr, ihOrL, ihCmp, ihUn, ihPrim, ihArgs⟩ := ih
    refine ⟨?_, ?_, ?_, ?_, ?_, ?_, ?_, ?_⟩
    · -- pAnd
      intro tokens pos e p h
      simp only [mkParsers] at h
      obtain ⟨⟨l, p1⟩, h1, h2⟩ := exceptBind_ok h
      exact ihAndL tokens l p1 e p (ihOr tokens pos l p1 h1) h2
    · -- pAndLoop
      intro tokens left pos e p hl h
      simp only [mkParsers] at h
      split at h
      · obtain ⟨⟨r, p1⟩, h1, h2⟩ := exceptBind_ok h
        have hr := ihOr tokens (pos + 1) r p1 h1
        refine ihAndL tokens _ p1 e p ?_ h2
        simp [floatLitsOnly, hl, hr]
      · simp only [Except.ok.injEq, Prod.mk.injEq] at h
        rw [← h.1]
        exact hl
    · -- pOr
      intro tokens pos e p h
      simp only [mkParsers] at h
      obtain ⟨⟨l, p1⟩, h1, h2⟩ := exceptBind_ok h
      exact ihOrL tokens l p1 e p (ihCmp tokens pos l p1 h1) h2
    · -- pOrLoop
      intro tokens left pos e p hl h
      simp only [mkParsers] at h
      split at h
      · obtain ⟨⟨r, p1⟩, h1, h2⟩ := exceptBind_ok h
        have hr := ihCmp tokens (pos + 1) r p1 h1
        refine ihOrL tokens _ p1 e p ?_ h2
        simp [floatLitsOnly, hl, hr]
      · simp only [Except.ok.injEq, Prod.mk.injEq] at h
        rw [← h.1]
        exact hl
    · -- pCmp
      intro tokens pos e p h
      simp only [mkParsers] at h
      obtain ⟨⟨l, p1⟩, h1, h2⟩ := exceptBind_ok h
      have hli := ihUn tokens pos l p1 h1
      dsimp only at h2
      split at h2
      · split at h2
        · obtain ⟨⟨r, p2⟩, h3, h4⟩ := exceptBind_ok h2
          have hr := ihUn tokens (p1 + 1) r p2 h3
          simp only [Except.ok.injEq, Prod.mk.injEq] at h4
          rw [← h4.1]
          simp [floatLitsOnly, hli, hr]
        · simp only [Except.ok.injEq, Prod.mk.injEq] at h2
          rw [← h2.1]
          exact hli
      · simp only [Except.ok.injEq, Prod.mk.injEq] at h2
        rw [← h2.1]
        exact hli
    · -- pUn
      intro tokens pos e p h
      simp only [mkParsers] at h
      split at h
      · obtain ⟨⟨e1, p1⟩, h1, h2⟩ := exceptBind_ok h
        have he1 := ihPrim tokens (pos + 1) e1 p1 h1
        simp only [Except.ok.injEq, Prod.mk.injEq] at h2
        rw [← h2.1]
        simp [floatLitsOnly, he1]
      · exact ihPrim tokens pos e p h
    · -- pPrim
      intro tokens pos e p h
      simp only [mkParsers] at h
      split at h
      · simp at h
      · split at h
        · -- parenthesized
          obtain ⟨⟨e1, p1⟩, h1, h2⟩ := exceptBind_ok h
          have he1 := ihAnd tokens (pos + 1) e1 p1 h1
          split at h2
          · simp at h2
          · simp only [Except.ok.injEq, Prod.mk.injEq] at h2
            rw [← h2.1]
            exact he1
        · split at h
          · -- numeric literal
            simp only [Except.ok.injEq, Prod.mk.injEq] at h
            rw [← h.1]
            simp [floatLitsOnly]
          · split at h
            · -- identifier
              split at h
              · -- function-call pattern
                split at h
                · obtain ⟨⟨args, p1⟩, h1, h2⟩ := exceptBind_ok h
                  have hargs := ihArgs tokens [] _ args p1 (by simp) h1
                  split at h2
                  · simp at h2
                  · simp only [Except.ok.injEq, Prod.mk.injEq] at h2
                    rw [← h2.1]
                    exact floatLits_funcCall _ args hargs
                · split at h
                  · simp at h
                  · simp only [Except.ok.injEq, Prod.mk.injEq] at h
                    rw [← h.1]
                    exact floatLits_funcCall _ [] (by simp)
              · -- plain variable reference
                simp only [Except.ok.injEq, Prod.mk.injEq] at h
                rw [← h.1]
                simp [floatLitsOnly]
            · simp at h
    · -- pArgs
      intro tokens acc np args p ha h
      simp only [mkParsers] at h
      obtain ⟨⟨arg, p1⟩, h1, h2⟩ := exceptBind_ok h
      have harg := ihOr tokens np arg p1 h1
      dsimp only at h2
      split at h2
      · simp at h2
      · split at h2
        · simp only [Except.ok.injEq, Prod.mk.injEq] at h2
          rw [← h2.1]
          simp [List.all_append, ha, harg]
        · split at h2
          · refine ihArgs tokens (acc ++ [arg]) (p1 + 1) args p ?_ h2
            simp [List.all_append, ha, harg]
          · simp at h2

/-- C10: every expression the normalize-and-parse pipeline returns has
float-only Literal nodes (numeric tokens, signed or not, all go through
float()), and in particular the comparison in the dialect text X == 2 is
parsed against the float literal 2.0, never an integer, string or boolean
literal. -/
theorem C10_parser_literals_are_floats :
    (∀ s e, normalize_and_parse s = .ok (some e) → floatLitsOnly e = true) ∧
    normalize_and_parse "X == 2" =
      .ok (some (.BinaryExpression .EQUALS (.VariableReference "X")
        (.Literal (.pfloat 2)))) := by
  constructor
  · intro s e h
    unfold normalize_and_parse at h
    split at h
    · simp at h
    · dsimp only at h
      cases hr : runParse (normalizeText s) with
      | error msg => rw [hr] at h; simp at h
      | ok ast =>
        rw [hr] at h
        simp only [Except.ok.injEq, Option.some.injEq] at h
        unfold runParse at hr
        obtain ⟨tokens, h1, h2⟩ := exceptBind_ok hr
        obtain ⟨⟨ast2, rem⟩, h3, h4⟩ := exceptBind_ok h2
        dsimp only at h4
        split at h4
        · simp at h4
        · simp only [Except.ok.injEq] at h4
          have h3a : (mkParsers (parserFuel tokens)).pAnd tokens 0 = .ok (ast2, rem) := h3
          have hf := (packFloatInv_mkParsers (parserFuel tokens)).1 tokens 0 ast2 rem h3a
          rw [← h, ← h4]
          exact hf
  · rfl

/-- C10 witness: the float-literal invariant discharged at the concrete
parse of the dialect text X == 2. -/
theorem C10_witness :
    floatLitsOnly (.BinaryExpression .EQUALS (.VariableReference "X")
      (.Literal (.pfloat 2))) = true :=
  C10_parser_literals_are_floats.1 "X == 2" _ C10_parser_literals_are_floats.2

end CSLM
